import Mathlib

/-!
Verification of the GreenTravelBackend invoice/settlement/provider services.

Shallow embedding of the Python service layer
(`facturas-service/app/services/invoice_item_service.py`,
`facturas-service/app/services/invoice_service.py`,
`provedores-service/app/services/provedor_service.py`,
`liquidaciones-service/app/services/liquidacion_service.py`).
`Decimal` values are modelled as rationals (ℚ); `date` values as integers
(ordinal day numbers), which preserves the order used by the date checks.
Database state is a record of lists; SQLAlchemy sessions are modelled by
explicit state passing, with each service method returning the post state
together with an `Except`-style result.
-/

namespace GreenTravel

/-- Embeds `InvoiceItemService._calculate_totals`
(invoice_item_service.py lines 49-94).  All six arguments are
`Optional[Decimal]` in the source; `none` models Python `None`. -/
def calculateTotals (quantity unit_price subtotal tax_rate tax_amount
    total_amount : Option ℚ) : ℚ × ℚ × ℚ :=
  -- Calculate subtotal
  let calculated_subtotal : ℚ :=
    match subtotal with
    | some s => s
    | none =>
      match quantity, unit_price with
      | some q, some p => q * p
      | _, _ => 0
  -- Calculate tax_amount
  let calculated_tax_amount : ℚ :=
    match tax_amount with
    | some t => t
    | none =>
      match tax_rate with
      | some r => if 0 < calculated_subtotal then calculated_subtotal * (r / 100) else 0
      | none => 0
  -- Calculate total_amount
  let calculated_total : ℚ :=
    match total_amount with
    | some t => t
    | none => calculated_subtotal + calculated_tax_amount
  (calculated_subtotal, calculated_tax_amount, calculated_total)

/-- Input record for `InvoiceService._calculate_item_totals`: the fields of
`InvoiceItemCreateNested` that the calculation reads (invoice.py lines
150-159).  The Pydantic class declares `total_amount` as required, but the
calculation body guards every field with `is not None`, so the embedding
keeps all six optional; call sites that come from the Pydantic request wrap
the required `total_amount` in `some`. -/
structure ItemTotalsInput where
  quantity : Option ℚ
  unit_price : Option ℚ
  subtotal : Option ℚ
  tax_rate : Option ℚ
  tax_amount : Option ℚ
  total_amount : Option ℚ
deriving Repr, DecidableEq

/-- Embeds `InvoiceService._calculate_item_totals`
(invoice_service.py lines 56-88). -/
def calculateItemTotals (item : ItemTotalsInput) : ℚ × ℚ × ℚ :=
  -- Calculate subtotal
  let subtotal : ℚ :=
    match item.subtotal with
    | some s => s
    | none =>
      match item.quantity, item.unit_price with
      | some q, some p => q * p
      | _, _ => 0
  -- Calculate tax_amount
  let tax_amount : ℚ :=
    match item.tax_amount with
    | some t => t
    | none =>
      match item.tax_rate with
      | some r => if 0 < subtotal then subtotal * (r / 100) else 0
      | none => 0
  -- Calculate total_amount
  let total_amount : ℚ :=
    match item.total_amount with
    | some t => t
    | none => subtotal + tax_amount
  (subtotal, tax_amount, total_amount)

/-- Error kinds raised by the services.  The source raises `ValueError` with
distinct messages; the spec classifies them as `NotFound` and
`ValidationFailed`, which these constructors distinguish. -/
inductive ServiceError where
  | invoiceNotFound (invoice_id : ℕ)
  | dateOrderViolation
  | totalMismatch (total_amount items_total : ℚ)
deriving Repr, DecidableEq

/-- Stored row of the `invoice_items` table (invoice_item.py lines 24-67).
`total_amount` is `nullable=False`; the other numeric columns are nullable. -/
structure StoredItem where
  id : ℕ
  invoice_id : ℕ
  description : String
  unit : Option String
  quantity : Option ℚ
  unit_price : Option ℚ
  subtotal : Option ℚ
  tax_rate : Option ℚ
  tax_amount : Option ℚ
  total_amount : ℚ
deriving Repr, DecidableEq

/-- Stored row of the `invoices` table (invoice.py).  Only the columns the
verified operations read or write are kept; the remaining descriptive
columns (cufe, provider_name, client fields, payment fields, ...) are copied
verbatim from the request by `create`/`create_with_items` and are touched by
no other operation, so they are represented by `invoice_number` and
`provider_name` as stand-ins of the same kind. -/
structure StoredInvoice where
  id : ℕ
  invoice_number : String
  provider_name : String
  arrival_date : Option ℤ
  departure_date : Option ℤ
  total_amount : ℚ
  paid : Bool
deriving Repr, DecidableEq

/-- The facturas-service database: the two tables plus the autoincrement
counters of their primary keys. -/
structure DB where
  invoices : List StoredInvoice
  items : List StoredItem
  nextInvoiceId : ℕ
  nextItemId : ℕ
deriving Repr, DecidableEq

def emptyDB : DB := ⟨[], [], 1, 1⟩

/-- `self.db.query(InvoiceItem).filter(InvoiceItem.invoice_id == invoice_id).all()` -/
def itemsOfInvoice (db : DB) (invoice_id : ℕ) : List StoredItem :=
  db.items.filter (fun it => it.invoice_id == invoice_id)

/-- `self.db.query(Invoice).filter(Invoice.id == invoice_id).first()` -/
def findInvoice (db : DB) (invoice_id : ℕ) : Option StoredInvoice :=
  db.invoices.find? (fun inv => inv.id == invoice_id)

/-- `self.db.query(InvoiceItem).filter(InvoiceItem.id == item_id).first()` -/
def findItem (db : DB) (item_id : ℕ) : Option StoredItem :=
  db.items.find? (fun it => it.id == item_id)

/-- Embeds `InvoiceItemService._recalculate_invoice_total`
(invoice_item_service.py lines 96-118): sum the `total_amount` of the
invoice's items and write it back; when the invoice is not found nothing
happens (the `if invoice:` guard). -/
def recalculateInvoiceTotal (db : DB) (invoice_id : ℕ) : DB :=
  let total : ℚ := ((itemsOfInvoice db invoice_id).map (fun it => it.total_amount)).sum
  match findInvoice db invoice_id with
  | some _ =>
    { db with invoices := db.invoices.map (fun inv =>
        if inv.id == invoice_id then { inv with total_amount := total } else inv) }
  | none => db

/-- `InvoiceItemCreateRequest` (invoice_item.py lines 76-98): every field
optional except `description` and `total_amount`. -/
structure InvoiceItemCreateRequest where
  description : String
  unit : Option String
  quantity : Option ℚ
  unit_price : Option ℚ
  subtotal : Option ℚ
  tax_rate : Option ℚ
  tax_amount : Option ℚ
  total_amount : ℚ
deriving Repr, DecidableEq

/-- `InvoiceItemUpdateRequest` (invoice_item.py lines 101-121): every field
optional.  `none` models a field absent from the request (Pydantic
`exclude_unset`); an explicit JSON `null` is not distinguished from absence
in this embedding. -/
structure InvoiceItemUpdateRequest where
  description : Option String
  unit : Option String
  quantity : Option ℚ
  unit_price : Option ℚ
  subtotal : Option ℚ
  tax_rate : Option ℚ
  tax_amount : Option ℚ
  total_amount : Option ℚ
deriving Repr, DecidableEq

namespace InvoiceItemService

/-- Embeds `InvoiceItemService.create` (invoice_item_service.py lines
173-232): verify the invoice exists (else `ValueError` not-found and
rollback), compute totals via `_calculate_totals` with the request's
(required) `total_amount`, insert the item, then recalculate the invoice
total. -/
def create (db : DB) (invoice_id : ℕ) (request : InvoiceItemCreateRequest) :
    DB × Except ServiceError StoredItem :=
  match findInvoice db invoice_id with
  | none => (db, .error (.invoiceNotFound invoice_id))
  | some _ =>
    let c := calculateTotals request.quantity request.unit_price request.subtotal
      request.tax_rate request.tax_amount (some request.total_amount)
    let item : StoredItem :=
      { id := db.nextItemId
        invoice_id := invoice_id
        description := request.description
        unit := request.unit
        quantity := request.quantity
        unit_price := request.unit_price
        subtotal := some c.1
        tax_rate := request.tax_rate
        tax_amount := some c.2.1
        total_amount := c.2.2 }
    let db1 : DB := { db with items := db.items ++ [item], nextItemId := db.nextItemId + 1 }
    (recalculateInvoiceTotal db1 invoice_id, .ok item)

/-- Embeds `InvoiceItemService.update` (invoice_item_service.py lines
234-295): merge request fields over the stored record; if any of quantity,
unit_price, subtotal, tax_rate was supplied, run `_calculate_totals` on the
merged values (the merged `total_amount` is the stored one when not
supplied, hence never `None`); write the merged/calculated fields back and
recalculate the invoice total.  Returns `ok none` when the item does not
exist. -/
def update (db : DB) (item_id : ℕ) (request : InvoiceItemUpdateRequest) :
    DB × Except ServiceError (Option StoredItem) :=
  match findItem db item_id with
  | none => (db, .ok none)
  | some item =>
    -- Get current values for calculation
    let quantity := match request.quantity with | some v => some v | none => item.quantity
    let unit_price := match request.unit_price with | some v => some v | none => item.unit_price
    let subtotal := match request.subtotal with | some v => some v | none => item.subtotal
    let tax_rate := match request.tax_rate with | some v => some v | none => item.tax_rate
    let tax_amount := match request.tax_amount with | some v => some v | none => item.tax_amount
    let total_amount := match request.total_amount with | some v => v | none => item.total_amount
    -- Recalculate totals if needed
    let anyChanged := request.quantity.isSome || request.unit_price.isSome ||
      request.subtotal.isSome || request.tax_rate.isSome
    let sat : Option ℚ × Option ℚ × ℚ :=
      if anyChanged then
        let c := calculateTotals quantity unit_price subtotal tax_rate tax_amount
          (some total_amount)
        (some c.1, some c.2.1, c.2.2)
      else (subtotal, tax_amount, total_amount)
    let item2 : StoredItem :=
      { item with
        description := match request.description with | some v => v | none => item.description
        unit := match request.unit with | some v => some v | none => item.unit
        quantity := quantity
        unit_price := unit_price
        tax_rate := tax_rate
        subtotal := sat.1
        tax_amount := sat.2.1
        total_amount := sat.2.2 }
    let db1 : DB := { db with items := db.items.map (fun it =>
      if it.id == item_id then item2 else it) }
    (recalculateInvoiceTotal db1 item.invoice_id, .ok (some item2))

/-- Embeds `InvoiceItemService.delete` (invoice_item_service.py lines
297-330): remove the item, then recalculate the invoice total; `false` when
the item does not exist. -/
def delete (db : DB) (item_id : ℕ) : DB × Bool :=
  match findItem db item_id with
  | none => (db, false)
  | some item =>
    let db1 : DB := { db with items := db.items.filter (fun it => !(it.id == item_id)) }
    (recalculateInvoiceTotal db1 item.invoice_id, true)

end InvoiceItemService

/-- The date validation shared by `InvoiceService.create`,
`create_with_items` and (on merged values) `update`:
`if request.departure_date and request.arrival_date:` followed by
`if request.departure_date < request.arrival_date: raise ValueError(...)`.
A Python `date` object is always truthy, so the outer guard tests presence. -/
def datesInvalid (departure_date arrival_date : Option ℤ) : Bool :=
  match departure_date, arrival_date with
  | some d, some a => d < a
  | _, _ => false

/-- `InvoiceCreateRequest` (invoice.py lines 104-122): `total_amount` is a
required field; dates are optional.  Descriptive columns abbreviated as in
`StoredInvoice`. -/
structure InvoiceCreateRequest where
  invoice_number : String
  provider_name : String
  arrival_date : Option ℤ
  departure_date : Option ℤ
  total_amount : ℚ
  paid : Bool
deriving Repr, DecidableEq

/-- `InvoiceItemCreateNested` (invoice.py lines 150-159): `total_amount`
required, the rest optional. -/
structure InvoiceItemCreateNested where
  description : String
  unit : Option String
  quantity : Option ℚ
  unit_price : Option ℚ
  subtotal : Option ℚ
  tax_rate : Option ℚ
  tax_amount : Option ℚ
  total_amount : ℚ
deriving Repr, DecidableEq

/-- The six attributes `_calculate_item_totals` reads from a nested item. -/
def InvoiceItemCreateNested.toTotalsInput (it : InvoiceItemCreateNested) : ItemTotalsInput :=
  ⟨it.quantity, it.unit_price, it.subtotal, it.tax_rate, it.tax_amount, some it.total_amount⟩

/-- `InvoiceCreateWithItemsRequest` (invoice.py lines 162-188):
`total_amount` optional at the invoice level, `items` required with
`min_length=1`. -/
structure InvoiceCreateWithItemsRequest where
  invoice_number : String
  provider_name : String
  arrival_date : Option ℤ
  departure_date : Option ℤ
  total_amount : Option ℚ
  paid : Bool
  items : List InvoiceItemCreateNested
deriving Repr, DecidableEq

/-- `InvoiceUpdateRequest` (invoice.py lines 218-240): every field optional. -/
structure InvoiceUpdateRequest where
  invoice_number : Option String
  provider_name : Option String
  arrival_date : Option ℤ
  departure_date : Option ℤ
  total_amount : Option ℚ
  paid : Option Bool
deriving Repr, DecidableEq

/-- The `items_total` accumulation of `create_with_items`
(invoice_service.py lines 319-323): per-item totals per
`_calculate_item_totals`, summed. -/
def itemsTotal (items : List InvoiceItemCreateNested) : ℚ :=
  (items.map (fun item => (calculateItemTotals item.toTotalsInput).2.2)).sum

namespace InvoiceService

/-- Embeds `InvoiceService.create` (invoice_service.py lines 242-298):
date validation, then insert the invoice with the caller's (required)
`total_amount`. -/
def create (db : DB) (request : InvoiceCreateRequest) :
    DB × Except ServiceError StoredInvoice :=
  if datesInvalid request.departure_date request.arrival_date then
    (db, .error .dateOrderViolation)
  else
    let invoice : StoredInvoice :=
      { id := db.nextInvoiceId
        invoice_number := request.invoice_number
        provider_name := request.provider_name
        arrival_date := request.arrival_date
        departure_date := request.departure_date
        total_amount := request.total_amount
        paid := request.paid }
    ({ db with
        invoices := db.invoices ++ [invoice]
        nextInvoiceId := db.nextInvoiceId + 1 }, .ok invoice)

/-- The item-insertion loop of `create_with_items` (invoice_service.py lines
364-379): one stored item per nested request item, totals per
`_calculate_item_totals`, primary keys assigned by autoincrement. -/
def buildNestedItems (invoice_id : ℕ) (next_id : ℕ) :
    List InvoiceItemCreateNested → List StoredItem
  | [] => []
  | item_data :: rest =>
    let c := calculateItemTotals item_data.toTotalsInput
    { id := next_id
      invoice_id := invoice_id
      description := item_data.description
      unit := item_data.unit
      quantity := item_data.quantity
      unit_price := item_data.unit_price
      subtotal := some c.1
      tax_rate := item_data.tax_rate
      tax_amount := some c.2.1
      total_amount := c.2.2 } :: buildNestedItems invoice_id (next_id + 1) rest

/-- Embeds `InvoiceService.create_with_items` (invoice_service.py lines
300-399): date validation; items_total from the nested items; a supplied
invoice `total_amount` must be within 0.01 of items_total (else
`ValueError`), otherwise items_total is used; invoice and items are
inserted in one transaction (single commit at line 381). -/
def createWithItems (db : DB) (request : InvoiceCreateWithItemsRequest) :
    DB × Except ServiceError StoredInvoice :=
  if datesInvalid request.departure_date request.arrival_date then
    (db, .error .dateOrderViolation)
  else
    let items_total := itemsTotal request.items
    let checked : Except ServiceError ℚ :=
      match request.total_amount with
      | some total_amount =>
        if (1 : ℚ)/100 < |total_amount - items_total| then
          .error (.totalMismatch total_amount items_total)
        else .ok total_amount
      | none => .ok items_total
    match checked with
    | .error e => (db, .error e)
    | .ok total_amount =>
      let invoice : StoredInvoice :=
        { id := db.nextInvoiceId
          invoice_number := request.invoice_number
          provider_name := request.provider_name
          arrival_date := request.arrival_date
          departure_date := request.departure_date
          total_amount := total_amount
          paid := request.paid }
      let newItems := buildNestedItems invoice.id db.nextItemId request.items
      ({ db with
          invoices := db.invoices ++ [invoice]
          items := db.items ++ newItems
          nextInvoiceId := db.nextInvoiceId + 1
          nextItemId := db.nextItemId + request.items.length }, .ok invoice)

/-- Embeds `InvoiceService.update` (invoice_service.py lines 401-448):
`ok none` when the invoice does not exist; date validation on the merged
dates; then the supplied fields overwrite the stored ones. -/
def update (db : DB) (invoice_id : ℕ) (request : InvoiceUpdateRequest) :
    DB × Except ServiceError (Option StoredInvoice) :=
  match findInvoice db invoice_id with
  | none => (db, .ok none)
  | some invoice =>
    let arrival_date := match request.arrival_date with
      | some v => some v | none => invoice.arrival_date
    let departure_date := match request.departure_date with
      | some v => some v | none => invoice.departure_date
    if datesInvalid departure_date arrival_date then
      (db, .error .dateOrderViolation)
    else
      let invoice2 : StoredInvoice :=
        { invoice with
          invoice_number := match request.invoice_number with
            | some v => v | none => invoice.invoice_number
          provider_name := match request.provider_name with
            | some v => v | none => invoice.provider_name
          arrival_date := arrival_date
          departure_date := departure_date
          total_amount := match request.total_amount with
            | some v => v | none => invoice.total_amount
          paid := match request.paid with
            | some v => v | none => invoice.paid }
      ({ db with invoices := db.invoices.map (fun inv =>
          if inv.id == invoice_id then invoice2 else inv) }, .ok (some invoice2))

/-- Embeds `InvoiceService.delete` (invoice_service.py lines 450-478): hard
delete; the items go with the invoice via the `ondelete='CASCADE'` foreign
key (invoice_item.py lines 37-42). -/
def delete (db : DB) (invoice_id : ℕ) : DB × Bool :=
  match findInvoice db invoice_id with
  | none => (db, false)
  | some _ =>
    ({ db with
        invoices := db.invoices.filter (fun inv => !(inv.id == invoice_id))
        items := db.items.filter (fun it => !(it.invoice_id == invoice_id)) }, true)

end InvoiceService

/-- Stored row of the `provedores` table (provedor.py lines 24-49).
`provedor_estado` is 1 = active, 0 = inactive. -/
structure Provedor where
  id : ℕ
  provedor_hotel_code : Option ℤ
  provedor_razonsocial : Option String
  provedor_nombre : Option String
  provedor_identificacion : Option String
  provedor_direccion : Option String
  provedor_telefono : Option String
  provedor_tipo : Option ℤ
  provedor_estado : Option ℤ
  provedor_ciudad : Option ℤ
  provedor_link_dropbox : Option String
deriving Repr, DecidableEq

namespace ProvedorService

/-- Embeds `ProvedorService.delete` (provedor_service.py lines 217-245):
soft delete, `provedor.provedor_estado = 0`; `false` when the id does not
exist. -/
def delete (db : List Provedor) (provedor_id : ℕ) : List Provedor × Bool :=
  match db.find? (fun p => p.id == provedor_id) with
  | none => (db, false)
  | some _ =>
    (db.map (fun p =>
      if p.id == provedor_id then { p with provedor_estado := some 0 } else p), true)

end ProvedorService

/-- Stored row of the `liquidaciones` table (liquidacion.py lines 24-65).
`estado` is 1 = active, 0 = inactive. -/
structure Liquidacion where
  id : ℕ
  id_reserva : Option ℤ
  nombre_asesor : Option String
  nombre_empresa : Option String
  nit_empresa : Option String
  direccion_empresa : Option String
  telefono_empresa : Option String
  servicio : Option String
  fecha_servicio : Option String
  incluye_servicio : Option String
  numero_pasajeros : Option ℤ
  valor_liquidacion : Option String
  iva : Option ℤ
  valor_iva : Option String
  valor_total_iva : Option String
  nombre_pasajero : Option String
  fecha : Option String
  factura : Option ℤ
  estado : Option ℤ
  origen_venta : Option String
  observaciones : String
deriving Repr, DecidableEq

namespace LiquidacionService

/-- Embeds `LiquidacionService.delete` (liquidacion_service.py lines
228-251): soft delete, `liquidacion.estado = 0`; `false` when the id does
not exist. -/
def delete (db : List Liquidacion) (liquidacion_id : ℕ) : List Liquidacion × Bool :=
  match db.find? (fun l => l.id == liquidacion_id) with
  | none => (db, false)
  | some _ =>
    (db.map (fun l =>
      if l.id == liquidacion_id then { l with estado := some 0 } else l), true)

end LiquidacionService

/-- The consistency invariant of claim C2: every invoice's stored
`total_amount` is the sum of the `total_amount` of its items. -/
def totalsConsistent (db : DB) : Prop :=
  ∀ inv ∈ db.invoices,
    inv.total_amount = ((itemsOfInvoice db inv.id).map (fun it => it.total_amount)).sum

instance (db : DB) : Decidable (totalsConsistent db) := by
  unfold totalsConsistent; infer_instance

/-- Well-formedness of a database reachable through the services: item
primary keys are distinct, and primary/foreign keys stay below the
autoincrement counters. -/
def DB.Wf (db : DB) : Prop :=
  (db.items.map (fun it => it.id)).Nodup ∧
  (∀ it ∈ db.items, it.id < db.nextItemId) ∧
  (∀ it ∈ db.items, it.invoice_id < db.nextInvoiceId) ∧
  (∀ inv ∈ db.invoices, inv.id < db.nextInvoiceId)

instance (db : DB) : Decidable db.Wf := by
  unfold DB.Wf; infer_instance

/-- The item-mutating operations claim C2 ranges over: item create, update
and delete, plus nested invoice-with-items creation. -/
inductive ItemMutatingOp where
  | itemCreate (invoice_id : ℕ) (request : InvoiceItemCreateRequest)
  | itemUpdate (item_id : ℕ) (request : InvoiceItemUpdateRequest)
  | itemDelete (item_id : ℕ)
  | nestedCreate (request : InvoiceCreateWithItemsRequest)
deriving Repr, DecidableEq

/-- Post state of one item-mutating operation. -/
def applyItemOp (db : DB) : ItemMutatingOp → DB
  | .itemCreate invoice_id request => (InvoiceItemService.create db invoice_id request).1
  | .itemUpdate item_id request => (InvoiceItemService.update db item_id request).1
  | .itemDelete item_id => (InvoiceItemService.delete db item_id).1
  | .nestedCreate request => (InvoiceService.createWithItems db request).1

/-- Post state of a sequence of item-mutating operations. -/
def applyItemOps (db : DB) (ops : List ItemMutatingOp) : DB :=
  ops.foldl applyItemOp db

/-- Every mutating entry point of the facturas-service, for the atomicity
claim: the post state together with the raised error, `ok ()` on success.
`item update` returning `None` and `delete` returning `False` are successful
outcomes, not errors, matching the source. -/
inductive Operation where
  | itemCreate (invoice_id : ℕ) (request : InvoiceItemCreateRequest)
  | itemUpdate (item_id : ℕ) (request : InvoiceItemUpdateRequest)
  | itemDelete (item_id : ℕ)
  | invoiceCreate (request : InvoiceCreateRequest)
  | invoiceCreateWithItems (request : InvoiceCreateWithItemsRequest)
  | invoiceUpdate (invoice_id : ℕ) (request : InvoiceUpdateRequest)
  | invoiceDelete (invoice_id : ℕ)
deriving Repr, DecidableEq

/-- Run one mutating operation, keeping only whether it raised. -/
def runOperation (db : DB) : Operation → DB × Except ServiceError Unit
  | .itemCreate invoice_id request =>
    let r := InvoiceItemService.create db invoice_id request
    (r.1, r.2.map fun _ => ())
  | .itemUpdate item_id request =>
    let r := InvoiceItemService.update db item_id request
    (r.1, r.2.map fun _ => ())
  | .itemDelete item_id => ((InvoiceItemService.delete db item_id).1, .ok ())
  | .invoiceCreate request =>
    let r := InvoiceService.create db request
    (r.1, r.2.map fun _ => ())
  | .invoiceCreateWithItems request =>
    let r := InvoiceService.createWithItems db request
    (r.1, r.2.map fun _ => ())
  | .invoiceUpdate invoice_id request =>
    let r := InvoiceService.update db invoice_id request
    (r.1, r.2.map fun _ => ())
  | .invoiceDelete invoice_id => ((InvoiceService.delete db invoice_id).1, .ok ())

/-- Restriction under which the C2 invariant is provable: a nested creation
must either omit the invoice `total_amount` or supply exactly the items
sum.  (Within the 0.01 tolerance but off the exact sum, the operation
succeeds yet stores the supplied value, breaking the invariant.) -/
def allowedOp : ItemMutatingOp → Prop
  | .nestedCreate request =>
    request.total_amount = none ∨ request.total_amount = some (itemsTotal request.items)
  | _ => True

/-- Sample item creation request (the worked example of the spec: 2 nights
at 150000 with 19 percent tax, total 357000). -/
def sampleItemRequest : InvoiceItemCreateRequest :=
  { description := "Habitacion estandar"
    unit := some "noche"
    quantity := some 2
    unit_price := some 150000
    subtotal := none
    tax_rate := some 19
    tax_amount := none
    total_amount := 357000 }

/-- The same item as a nested-creation entry. -/
def nestedItem357 : InvoiceItemCreateNested :=
  { description := "Habitacion estandar"
    unit := some "noche"
    quantity := some 2
    unit_price := some 150000
    subtotal := none
    tax_rate := some 19
    tax_amount := none
    total_amount := 357000 }

/-- Nested creation whose explicit invoice total (500000) misses the items
sum (357000) by more than 0.01. -/
def reqMismatch : InvoiceCreateWithItemsRequest :=
  { invoice_number := "FAC-001"
    provider_name := "Hotel"
    arrival_date := none
    departure_date := none
    total_amount := some 500000
    paid := false
    items := [nestedItem357] }

/-- Nested creation without an explicit invoice total. -/
def reqNoTotal : InvoiceCreateWithItemsRequest :=
  { invoice_number := "FAC-002"
    provider_name := "Hotel"
    arrival_date := none
    departure_date := none
    total_amount := none
    paid := false
    items := [nestedItem357] }

/-- Nested creation with departure (day 15) before arrival (day 20). -/
def reqBadDates : InvoiceCreateWithItemsRequest :=
  { invoice_number := "FAC-003"
    provider_name := "Hotel"
    arrival_date := some 20
    departure_date := some 15
    total_amount := none
    paid := false
    items := [nestedItem357] }

/-- One nested item whose (required) total is 100. -/
def nestedItem100 : InvoiceItemCreateNested :=
  { description := "Servicio"
    unit := none
    quantity := none
    unit_price := none
    subtotal := none
    tax_rate := none
    tax_amount := none
    total_amount := 100 }

/-- Nested creation with an explicit total of 100.01 against items summing
to 100: inside the 0.01 tolerance, so it succeeds. -/
def reqTolerance : InvoiceCreateWithItemsRequest :=
  { invoice_number := "FAC-004"
    provider_name := "Hotel"
    arrival_date := none
    departure_date := none
    total_amount := some (10001/100)
    paid := false
    items := [nestedItem100] }

/-- Stored item for the update scenario: subtotal 100, tax rate 19, stored
tax 19, stored total 119 (= 100 + 19). -/
def c3Item : StoredItem :=
  { id := 1
    invoice_id := 1
    description := "Servicio"
    unit := none
    quantity := none
    unit_price := none
    subtotal := some 100
    tax_rate := some 19
    tax_amount := some 19
    total_amount := 119 }

/-- Parent invoice of `c3Item`. -/
def c3Invoice : StoredInvoice :=
  { id := 1
    invoice_number := "F-1"
    provider_name := "Hotel"
    arrival_date := none
    departure_date := none
    total_amount := 119
    paid := false }

/-- Database holding exactly `c3Invoice` and `c3Item`. -/
def c3DB : DB := ⟨[c3Invoice], [c3Item], 2, 2⟩

/-- Update supplying only a new subtotal (200), no tax_amount, no
total_amount. -/
def c3UpdateRequest : InvoiceItemUpdateRequest :=
  { description := none
    unit := none
    quantity := none
    unit_price := none
    subtotal := some 200
    tax_rate := none
    tax_amount := none
    total_amount := none }

/-- What the update persists for `c3Item` under `c3UpdateRequest`: the
subtotal changes, the stored tax_amount and total_amount survive. -/
def c3UpdatedItem : StoredItem := { c3Item with subtotal := some 200 }

/-- An active provider record. -/
def sampleProvedor : Provedor :=
  { id := 1
    provedor_hotel_code := none
    provedor_razonsocial := none
    provedor_nombre := some "Hotel Verde"
    provedor_identificacion := none
    provedor_direccion := none
    provedor_telefono := none
    provedor_tipo := none
    provedor_estado := some 1
    provedor_ciudad := none
    provedor_link_dropbox := none }

/-- An active settlement record. -/
def sampleLiquidacion : Liquidacion :=
  { id := 1
    id_reserva := none
    nombre_asesor := none
    nombre_empresa := none
    nit_empresa := none
    direccion_empresa := none
    telefono_empresa := none
    servicio := none
    fecha_servicio := none
    incluye_servicio := none
    numero_pasajeros := none
    valor_liquidacion := none
    iva := none
    valor_iva := none
    valor_total_iva := none
    nombre_pasajero := none
    fecha := none
    factura := none
    estado := some 1
    origen_venta := none
    observaciones := "" }

theorem recalculateInvoiceTotal_items (db : DB) (invoice_id : ℕ) :
    (recalculateInvoiceTotal db invoice_id).items = db.items := by
  unfold recalculateInvoiceTotal
  cases findInvoice db invoice_id <;> rfl

theorem recalculateInvoiceTotal_counters (db : DB) (invoice_id : ℕ) :
    (recalculateInvoiceTotal db invoice_id).nextItemId = db.nextItemId ∧
    (recalculateInvoiceTotal db invoice_id).nextInvoiceId = db.nextInvoiceId := by
  unfold recalculateInvoiceTotal
  cases findInvoice db invoice_id <;> exact ⟨rfl, rfl⟩

theorem itemsOfInvoice_congr (db1 db2 : DB) (h : db1.items = db2.items) (i : ℕ) :
    itemsOfInvoice db1 i = itemsOfInvoice db2 i := by
  unfold itemsOfInvoice; rw [h]

end GreenTravel

namespace GreenTravel

/-- C1: the item total calculation follows the three spec rules: the supplied
subtotal wins, else `quantity * unit_price` when both are present, else 0;
the supplied tax_amount wins, else `subtotal * (tax_rate/100)` when tax_rate
is present and subtotal is positive, else 0; the supplied total_amount wins,
else `subtotal + tax_amount`.  Being a total function, it raises no error on
any combination of inputs. -/
theorem calculateTotals_spec (q up s tr ta tot : Option ℚ) :
    (calculateTotals q up s tr ta tot).1 =
      (match s with
       | some sv => sv
       | none => match q, up with
                 | some qv, some upv => qv * upv
                 | _, _ => 0) ∧
    (calculateTotals q up s tr ta tot).2.1 =
      (match ta with
       | some tav => tav
       | none =>
         if h : tr.isSome ∧ 0 < (calculateTotals q up s tr ta tot).1 then
           (calculateTotals q up s tr ta tot).1 * (tr.get h.1 / 100)
         else 0) ∧
    (calculateTotals q up s tr ta tot).2.2 =
      (match tot with
       | some totv => totv
       | none => (calculateTotals q up s tr ta tot).1 +
                 (calculateTotals q up s tr ta tot).2.1) := by
  refine ⟨rfl, ?_, ?_⟩
  · cases ta with
    | some tav => rfl
    | none =>
      cases tr with
      | none => simp [calculateTotals]
      | some rv =>
        simp only [calculateTotals, Option.isSome_some, true_and, Option.get_some,
          dite_eq_ite]
  · cases tot with
    | some totv => rfl
    | none => rfl

theorem itemsOfInvoice_filter (db : DB) (p : StoredItem → Bool) (j : ℕ) :
    itemsOfInvoice { db with items := db.items.filter p } j =
      (itemsOfInvoice db j).filter p := by
  unfold itemsOfInvoice
  simp only [List.filter_filter]
  exact List.filter_congr (fun x _ => Bool.and_comm _ _)

theorem recalc_sets_matching_total (db : DB) (j : ℕ) :
    ∀ inv2 ∈ (recalculateInvoiceTotal db j).invoices, inv2.id = j →
      inv2.total_amount = ((itemsOfInvoice db j).map (fun it => it.total_amount)).sum := by
  intro inv2 hmem hid
  unfold recalculateInvoiceTotal at hmem
  cases hf : findInvoice db j with
  | none =>
    rw [hf] at hmem
    have := List.find?_eq_none.mp hf inv2 hmem
    simp [hid] at this
  | some invoice =>
    rw [hf] at hmem
    simp only [List.mem_map] at hmem
    obtain ⟨inv, hinv, rfl⟩ := hmem
    by_cases hc : inv.id = j
    · simp [hc]
    · simp only [beq_iff_eq, if_neg hc] at hid ⊢
      exact absurd hid hc

theorem recalc_keeps_nonmatching (db : DB) (j : ℕ) :
    ∀ inv2 ∈ (recalculateInvoiceTotal db j).invoices, inv2.id ≠ j →
      inv2 ∈ db.invoices := by
  intro inv2 hmem hne
  unfold recalculateInvoiceTotal at hmem
  cases hf : findInvoice db j with
  | none => rw [hf] at hmem; exact hmem
  | some invoice =>
    rw [hf] at hmem
    simp only [List.mem_map] at hmem
    obtain ⟨inv, hinv, rfl⟩ := hmem
    by_cases hc : inv.id = j
    · exfalso
      apply hne
      simp [hc]
    · simpa [beq_iff_eq, if_neg hc] using hinv

/-- C5: recalculation loads the invoice's items, sums their `total_amount`
(0 when there are none, the empty sum), and writes the sum back as the
invoice's `total_amount`, leaving the items table untouched; when no invoice
with that id exists it is a silent no-op (no error is possible: the function
is total and returns the state unchanged); and deleting the only item of an
invoice leaves that invoice's `total_amount` at 0. -/
theorem recalculateInvoiceTotal_contract (db : DB) (invoice_id : ℕ) :
    (findInvoice db invoice_id = none → recalculateInvoiceTotal db invoice_id = db) ∧
    (recalculateInvoiceTotal db invoice_id).items = db.items ∧
    (∀ invoice, findInvoice db invoice_id = some invoice →
      ∀ inv2 ∈ (recalculateInvoiceTotal db invoice_id).invoices,
        (inv2.id = invoice_id →
          inv2.total_amount =
            ((itemsOfInvoice db invoice_id).map (fun it => it.total_amount)).sum) ∧
        (inv2.id ≠ invoice_id → inv2 ∈ db.invoices)) ∧
    (∀ item_id item, findItem db item_id = some item →
      itemsOfInvoice db item.invoice_id = [item] →
      ∀ inv2 ∈ ((InvoiceItemService.delete db item_id).1).invoices,
        inv2.id = item.invoice_id → inv2.total_amount = 0) := by
  refine ⟨?_, recalculateInvoiceTotal_items db invoice_id, ?_, ?_⟩
  · intro h
    unfold recalculateInvoiceTotal
    rw [h]
  · intro invoice _ inv2 hmem
    exact ⟨recalc_sets_matching_total db invoice_id inv2 hmem,
      recalc_keeps_nonmatching db invoice_id inv2 hmem⟩
  · intro item_id item hfind honly inv2 hmem hid
    have hdel : (InvoiceItemService.delete db item_id).1 =
        recalculateInvoiceTotal
          { db with items := db.items.filter (fun it => !(it.id == item_id)) }
          item.invoice_id := by
      unfold InvoiceItemService.delete
      rw [hfind]
    rw [hdel] at hmem
    have hpred : (fun it => it.id == item_id) item = true := by
      have := List.find?_some hfind
      simpa using this
    have hempty : itemsOfInvoice
        { db with items := db.items.filter (fun it => !(it.id == item_id)) }
        item.invoice_id = [] := by
      rw [itemsOfInvoice_filter, honly]
      simp at hpred
      simp [List.filter, hpred]
    have := recalc_sets_matching_total
      { db with items := db.items.filter (fun it => !(it.id == item_id)) }
      item.invoice_id inv2 hmem hid
    rw [hempty] at this
    simpa using this

/-- Witness for C5: recalculating a non-existent invoice id on the empty
database is a silent no-op. -/
theorem recalculateInvoiceTotal_contract_witness :
    recalculateInvoiceTotal emptyDB 99999 = emptyDB :=
  (recalculateInvoiceTotal_contract emptyDB 99999).1 rfl

/-- C7: creating an item under a non-existent invoice id fails with the
not-found error and persists nothing (the returned state is the input
state); under an existing invoice, the item is persisted with totals
computed by the section 4.1 rules and the parent invoice's total is then
recalculated. -/
theorem invoiceItemService_create_contract (db : DB) (invoice_id : ℕ)
    (request : InvoiceItemCreateRequest) :
    (findInvoice db invoice_id = none →
      InvoiceItemService.create db invoice_id request =
        (db, .error (.invoiceNotFound invoice_id))) ∧
    (∀ invoice, findInvoice db invoice_id = some invoice →
      ∃ item : StoredItem,
        (InvoiceItemService.create db invoice_id request).2 = .ok item ∧
        item.invoice_id = invoice_id ∧
        item.subtotal = some (calculateTotals request.quantity request.unit_price
          request.subtotal request.tax_rate request.tax_amount
          (some request.total_amount)).1 ∧
        item.tax_amount = some (calculateTotals request.quantity request.unit_price
          request.subtotal request.tax_rate request.tax_amount
          (some request.total_amount)).2.1 ∧
        item.total_amount = (calculateTotals request.quantity request.unit_price
          request.subtotal request.tax_rate request.tax_amount
          (some request.total_amount)).2.2 ∧
        (InvoiceItemService.create db invoice_id request).1 =
          recalculateInvoiceTotal
            { db with
              items := db.items ++ [item]
              nextItemId := db.nextItemId + 1 }
            invoice_id) := by
  constructor
  · intro h
    unfold InvoiceItemService.create
    rw [h]
  · intro invoice h
    unfold InvoiceItemService.create
    rw [h]
    exact ⟨_, rfl, rfl, rfl, rfl, rfl, rfl⟩

/-- Witness for C7: creating an item for invoice id 99999 on the empty
database fails with the not-found error and leaves the state unchanged. -/
theorem invoiceItemService_create_contract_witness :
    InvoiceItemService.create emptyDB 99999 sampleItemRequest =
      (emptyDB, .error (.invoiceNotFound 99999)) :=
  (invoiceItemService_create_contract emptyDB 99999 sampleItemRequest).1 rfl

/-- C8: for invoice creation (plain and nested) and invoice update, whenever
both dates are present (merged with the stored record for update), the
operation raises the date validation error exactly when
`departure_date < arrival_date`; otherwise the date check passes (for plain
creation the operation then succeeds outright; for nested creation and
update the result is never the date error). -/
theorem invoice_date_validation (db : DB) :
    (∀ request : InvoiceCreateRequest, ∀ d a,
      request.departure_date = some d → request.arrival_date = some a →
      (((InvoiceService.create db request).2 = .error .dateOrderViolation) ↔ d < a) ∧
      ((InvoiceService.create db request).2.isOk = true ↔ ¬ d < a)) ∧
    (∀ request : InvoiceCreateWithItemsRequest, ∀ d a,
      request.departure_date = some d → request.arrival_date = some a →
      (((InvoiceService.createWithItems db request).2 =
        .error .dateOrderViolation) ↔ d < a)) ∧
    (∀ invoice_id request invoice, findInvoice db invoice_id = some invoice →
      ∀ d a,
      (match request.departure_date with
       | some v => some v
       | none => invoice.departure_date) = some d →
      (match request.arrival_date with
       | some v => some v
       | none => invoice.arrival_date) = some a →
      (((InvoiceService.update db invoice_id request).2 =
        .error .dateOrderViolation) ↔ d < a)) := by
  refine ⟨?_, ?_, ?_⟩
  · intro request d a hd ha
    simp only [InvoiceService.create]
    rw [hd, ha]
    by_cases hlt : d < a
    · rw [if_pos (by simpa [datesInvalid] using hlt)]
      simp [Except.isOk, Except.toBool, hlt]
    · rw [if_neg (by simp [datesInvalid, hlt])]
      simp [Except.isOk, Except.toBool, hlt]
  · intro request d a hd ha
    simp only [InvoiceService.createWithItems]
    rw [hd, ha]
    by_cases hlt : d < a
    · rw [if_pos (by simpa [datesInvalid] using hlt)]
      simp [hlt]
    · rw [if_neg (by simp [datesInvalid, hlt])]
      cases htot : request.total_amount with
      | none => simp [hlt]
      | some t =>
        simp only []
        by_cases hmis : (1 : ℚ)/100 < |t - itemsTotal request.items|
        · rw [if_pos hmis]
          simp [hlt]
        · rw [if_neg hmis]
          simp [hlt]
  · intro invoice_id request invoice hfind d a hd ha
    simp only [InvoiceService.update, hfind]
    rw [hd, ha]
    by_cases hlt : d < a
    · rw [if_pos (by simpa [datesInvalid] using hlt)]
      simp [hlt]
    · rw [if_neg (by simp [datesInvalid, hlt])]
      simp [hlt]

/-- Witness for C8: nested creation with arrival day 20 and departure day 15
(the spec's 2025-01-20 / 2025-01-15 example) fails with the date validation
error. -/
theorem invoice_date_validation_witness :
    (InvoiceService.createWithItems emptyDB reqBadDates).2 =
      .error .dateOrderViolation :=
  ((invoice_date_validation emptyDB).2.1 reqBadDates 15 20 rfl rfl).mpr (by decide)

/-- C4: in nested creation (with the date check passing), a supplied invoice
`total_amount = t` makes the operation fail with the total-mismatch
validation error exactly when `|t - items_total| > 0.01`, with items_total
the sum of the per-item section 4.1 totals; with no supplied total the
created invoice's `total_amount` equals items_total. -/
theorem createWithItems_total_validation (db : DB)
    (request : InvoiceCreateWithItemsRequest)
    (hdates : datesInvalid request.departure_date request.arrival_date = false) :
    (∀ t, request.total_amount = some t →
      (((InvoiceService.createWithItems db request).2 =
          .error (.totalMismatch t (itemsTotal request.items))) ↔
        (1 : ℚ)/100 < |t - itemsTotal request.items|) ∧
      ((InvoiceService.createWithItems db request).2.isOk = true ↔
        ¬ (1 : ℚ)/100 < |t - itemsTotal request.items|)) ∧
    (request.total_amount = none →
      ∃ invoice, (InvoiceService.createWithItems db request).2 = .ok invoice ∧
        invoice.total_amount = itemsTotal request.items) := by
  have hcond : ¬ (datesInvalid request.departure_date request.arrival_date = true) := by
    simp [hdates]
  constructor
  · intro t ht
    simp only [InvoiceService.createWithItems]
    rw [if_neg hcond, ht]
    simp only []
    by_cases hmis : (1 : ℚ)/100 < |t - itemsTotal request.items|
    · rw [if_pos hmis]
      have hmis2 : (100 : ℚ)⁻¹ < |t - itemsTotal request.items| := by simpa using hmis
      simp [Except.isOk, Except.toBool, not_lt, hmis2, le_of_lt]
    · rw [if_neg hmis]
      have hmis2 : |t - itemsTotal request.items| ≤ (100 : ℚ)⁻¹ := by
        simpa using not_lt.mp hmis
      simp [Except.isOk, Except.toBool, not_lt, hmis2]
  · intro ht
    refine ⟨{ id := db.nextInvoiceId
              invoice_number := request.invoice_number
              provider_name := request.provider_name
              arrival_date := request.arrival_date
              departure_date := request.departure_date
              total_amount := itemsTotal request.items
              paid := request.paid }, ?_, rfl⟩
    simp only [InvoiceService.createWithItems]
    rw [if_neg hcond, ht]

/-- Witness for C4: explicit total 500000 against items summing to 357000
fails with the mismatch error; the same items with no explicit total yield
an invoice whose total is the items sum. -/
theorem createWithItems_total_validation_witness :
    (InvoiceService.createWithItems emptyDB reqMismatch).2 =
      .error (.totalMismatch 500000 (itemsTotal reqMismatch.items)) ∧
    (∃ invoice, (InvoiceService.createWithItems emptyDB reqNoTotal).2 = .ok invoice ∧
      invoice.total_amount = itemsTotal reqNoTotal.items) :=
  ⟨((createWithItems_total_validation emptyDB reqMismatch rfl).1 500000 rfl).1.mpr
      (by norm_num [itemsTotal, calculateItemTotals, reqMismatch, nestedItem357,
        InvoiceItemCreateNested.toTotalsInput]),
   (createWithItems_total_validation emptyDB reqNoTotal rfl).2 rfl⟩

/-- C10: deleting a provider or a settlement is a soft delete: for an
existing id it returns `true`, keeps the list length, and rewrites exactly
the records with that id to have status flag 0 while every other record (and
every other field of the touched record) is unchanged; for a missing id it
returns `false` and changes nothing.  Deleting an invoice is a hard delete:
it removes the invoice row and every item row of that invoice. -/
theorem delete_policies (pdb : List Provedor) (ldb : List Liquidacion) (db : DB) :
    (∀ provedor_id : ℕ,
      (pdb.find? (fun p => p.id == provedor_id) = none →
        ProvedorService.delete pdb provedor_id = (pdb, false)) ∧
      (∀ p0, pdb.find? (fun p => p.id == provedor_id) = some p0 →
        (ProvedorService.delete pdb provedor_id).2 = true ∧
        (ProvedorService.delete pdb provedor_id).1.length = pdb.length ∧
        ∀ k : ℕ, ∀ h : k < pdb.length,
          ∃ h2 : k < (ProvedorService.delete pdb provedor_id).1.length,
            (ProvedorService.delete pdb provedor_id).1.get ⟨k, h2⟩ =
              (if (pdb.get ⟨k, h⟩).id = provedor_id then
                { pdb.get ⟨k, h⟩ with provedor_estado := some 0 }
               else pdb.get ⟨k, h⟩))) ∧
    (∀ liquidacion_id : ℕ,
      (ldb.find? (fun l => l.id == liquidacion_id) = none →
        LiquidacionService.delete ldb liquidacion_id = (ldb, false)) ∧
      (∀ l0, ldb.find? (fun l => l.id == liquidacion_id) = some l0 →
        (LiquidacionService.delete ldb liquidacion_id).2 = true ∧
        (LiquidacionService.delete ldb liquidacion_id).1.length = ldb.length ∧
        ∀ k : ℕ, ∀ h : k < ldb.length,
          ∃ h2 : k < (LiquidacionService.delete ldb liquidacion_id).1.length,
            (LiquidacionService.delete ldb liquidacion_id).1.get ⟨k, h2⟩ =
              (if (ldb.get ⟨k, h⟩).id = liquidacion_id then
                { ldb.get ⟨k, h⟩ with estado := some 0 }
               else ldb.get ⟨k, h⟩))) ∧
    (∀ invoice_id : ℕ,
      (findInvoice db invoice_id = none →
        InvoiceService.delete db invoice_id = (db, false)) ∧
      (∀ inv0, findInvoice db invoice_id = some inv0 →
        (InvoiceService.delete db invoice_id).2 = true ∧
        (InvoiceService.delete db invoice_id).1.invoices =
          db.invoices.filter (fun inv => !(inv.id == invoice_id)) ∧
        (InvoiceService.delete db invoice_id).1.items =
          db.items.filter (fun it => !(it.invoice_id == invoice_id)) ∧
        (∀ inv2 ∈ (InvoiceService.delete db invoice_id).1.invoices,
          inv2.id ≠ invoice_id) ∧
        (∀ it2 ∈ (InvoiceService.delete db invoice_id).1.items,
          it2.invoice_id ≠ invoice_id))) := by
  refine ⟨?_, ?_, ?_⟩
  · intro provedor_id
    constructor
    · intro hf
      simp only [ProvedorService.delete, hf]
    · intro p0 hf
      have hres : ProvedorService.delete pdb provedor_id =
          (pdb.map (fun p =>
            if p.id == provedor_id then { p with provedor_estado := some 0 } else p),
           true) := by
        simp only [ProvedorService.delete, hf]
      rw [hres]
      refine ⟨rfl, by simp, ?_⟩
      intro k h
      refine ⟨by simpa using h, ?_⟩
      simp only [List.get_eq_getElem, List.getElem_map]
      by_cases hid : pdb[k].id = provedor_id
      · simp [hid]
      · simp [hid]
  · intro liquidacion_id
    constructor
    · intro hf
      simp only [LiquidacionService.delete, hf]
    · intro l0 hf
      have hres : LiquidacionService.delete ldb liquidacion_id =
          (ldb.map (fun l =>
            if l.id == liquidacion_id then { l with estado := some 0 } else l),
           true) := by
        simp only [LiquidacionService.delete, hf]
      rw [hres]
      refine ⟨rfl, by simp, ?_⟩
      intro k h
      refine ⟨by simpa using h, ?_⟩
      simp only [List.get_eq_getElem, List.getElem_map]
      by_cases hid : ldb[k].id = liquidacion_id
      · simp [hid]
      · simp [hid]
  · intro invoice_id
    constructor
    · intro hf
      simp only [InvoiceService.delete, hf]
    · intro inv0 hf
      have hres : InvoiceService.delete db invoice_id =
          ({ db with
              invoices := db.invoices.filter (fun inv => !(inv.id == invoice_id))
              items := db.items.filter (fun it => !(it.invoice_id == invoice_id)) },
           true) := by
        simp only [InvoiceService.delete, hf]
      rw [hres]
      refine ⟨rfl, rfl, rfl, ?_, ?_⟩
      · intro inv2 hmem
        have := (List.mem_filter.mp hmem).2
        simpa using this
      · intro it2 hmem
        have := (List.mem_filter.mp hmem).2
        simpa using this

/-- Witness for C10: deleting missing ids changes nothing and returns false
in all three services; deleting an existing provider returns true. -/
theorem delete_policies_witness :
    ProvedorService.delete [] 7 = ([], false) ∧
    LiquidacionService.delete [] 7 = ([], false) ∧
    InvoiceService.delete emptyDB 7 = (emptyDB, false) ∧
    (ProvedorService.delete [sampleProvedor] 1).2 = true :=
  ⟨((delete_policies [] [] emptyDB).1 7).1 rfl,
   ((delete_policies [] [] emptyDB).2.1 7).1 rfl,
   ((delete_policies [] [] emptyDB).2.2 7).1 rfl,
   (((delete_policies [sampleProvedor] [] emptyDB).1 1).2 sampleProvedor rfl).1⟩

/-- C6: a mutating operation that raises an error leaves the data store
exactly as it was (all error paths precede every write, and the source rolls
back); and a successful nested creation persists the invoice together with
all of its items in the same step. -/
theorem mutating_ops_atomic (db : DB) :
    (∀ op e, (runOperation db op).2 = .error e → (runOperation db op).1 = db) ∧
    (∀ request invoice,
      (InvoiceService.createWithItems db request).2 = .ok invoice →
      (InvoiceService.createWithItems db request).1.invoices =
        db.invoices ++ [invoice] ∧
      (InvoiceService.createWithItems db request).1.items =
        db.items ++ InvoiceService.buildNestedItems invoice.id db.nextItemId
          request.items) := by
  constructor
  · intro op e h
    cases op with
    | itemCreate invoice_id request =>
      cases hf : findInvoice db invoice_id with
      | none => simp [runOperation, InvoiceItemService.create, hf]
      | some invoice => simp [runOperation, Except.map, InvoiceItemService.create, hf] at h
    | itemUpdate item_id request =>
      cases hf : findItem db item_id with
      | none => simp [runOperation, Except.map, InvoiceItemService.update, hf] at h
      | some item => simp [runOperation, Except.map, InvoiceItemService.update, hf] at h
    | itemDelete item_id => simp [runOperation] at h
    | invoiceCreate request =>
      by_cases hd : datesInvalid request.departure_date request.arrival_date = true
      · simp [runOperation, InvoiceService.create, hd]
      · simp [runOperation, Except.map, InvoiceService.create, hd] at h
    | invoiceCreateWithItems request =>
      by_cases hd : datesInvalid request.departure_date request.arrival_date = true
      · simp [runOperation, InvoiceService.createWithItems, hd]
      · cases htot : request.total_amount with
        | none => simp [runOperation, Except.map, InvoiceService.createWithItems, hd, htot] at h
        | some t =>
          by_cases hmis : (100 : ℚ)⁻¹ < |t - itemsTotal request.items|
          · simp [runOperation, InvoiceService.createWithItems, hd, htot, hmis]
          · simp [runOperation, Except.map, InvoiceService.createWithItems, hd, htot, hmis] at h
    | invoiceUpdate invoice_id request =>
      cases hf : findInvoice db invoice_id with
      | none => simp [runOperation, Except.map, InvoiceService.update, hf] at h
      | some invoice =>
        by_cases hd : datesInvalid
            (match request.departure_date with
             | some v => some v
             | none => invoice.departure_date)
            (match request.arrival_date with
             | some v => some v
             | none => invoice.arrival_date) = true
        · simp [runOperation, InvoiceService.update, hf, hd]
        · simp [runOperation, Except.map, InvoiceService.update, hf, hd] at h
    | invoiceDelete invoice_id => simp [runOperation] at h
  · intro request invoice h
    by_cases hd : datesInvalid request.departure_date request.arrival_date = true
    · simp [InvoiceService.createWithItems, hd] at h
    · simp only [InvoiceService.createWithItems] at h ⊢
      rw [if_neg hd] at h ⊢
      cases htot : request.total_amount with
      | none =>
        rw [htot] at h
        simp only [] at h ⊢
        injection h with h2
        subst h2
        exact ⟨rfl, rfl⟩
      | some t =>
        rw [htot] at h
        simp only [] at h ⊢
        by_cases hmis : (1 : ℚ)/100 < |t - itemsTotal request.items|
        · rw [if_pos hmis] at h
          simp at h
        · rw [if_neg hmis] at h ⊢
          simp only [] at h ⊢
          injection h with h2
          subst h2
          exact ⟨rfl, rfl⟩

/-- Witness for C6: the failed item creation under the missing invoice id
99999 leaves the empty database unchanged. -/
theorem mutating_ops_atomic_witness :
    (runOperation emptyDB (.itemCreate 99999 sampleItemRequest)).1 = emptyDB :=
  (mutating_ops_atomic emptyDB).1 (.itemCreate 99999 sampleItemRequest)
    (.invoiceNotFound 99999) rfl

/-- Counterexample to C3 as stated: `c3Item` is stored with
subtotal 100, tax_rate 19, tax_amount 19, total_amount 119 (which does equal
subtotal + tax_amount); the update supplies only subtotal 200 — one of the
recomputation-triggering fields — and no total_amount, yet the persisted
item keeps total_amount 119, which is not 200 + 19: total_amount is not
resummed as subtotal + tax_amount. -/
theorem item_update_total_not_resummed :
    c3UpdateRequest.total_amount = none ∧
    c3UpdateRequest.subtotal = some 200 ∧
    (InvoiceItemService.update c3DB 1 c3UpdateRequest).2 = .ok (some c3UpdatedItem) ∧
    c3Item.total_amount = c3Item.subtotal.getD 0 + c3Item.tax_amount.getD 0 ∧
    c3UpdatedItem.total_amount ≠
      c3UpdatedItem.subtotal.getD 0 + c3UpdatedItem.tax_amount.getD 0 := by
  refine ⟨rfl, rfl, rfl, by norm_num [c3Item], ?_⟩
  norm_num [c3UpdatedItem, c3Item]

/-- C3 (amended): an item update that supplies any of quantity, unit_price,
subtotal, or tax_rate recomputes subtotal, tax_amount, and total_amount per
the section 4.1 rules applied to the merged field values — in which the
stored tax_amount and total_amount count as supplied values, since every
create path requires total_amount and stores a computed tax_amount; hence
the persisted total_amount is the request's total_amount when supplied and
the previous stored total_amount otherwise, rather than a fresh
subtotal + tax_amount sum. -/
theorem item_update_merged_recalculation (db : DB) (item_id : ℕ)
    (request : InvoiceItemUpdateRequest) (item : StoredItem)
    (hfind : findItem db item_id = some item)
    (htrig : (request.quantity.isSome || request.unit_price.isSome ||
      request.subtotal.isSome || request.tax_rate.isSome) = true) :
    ((InvoiceItemService.update db item_id request).2).isOk = true ∧
    (InvoiceItemService.update db item_id request).2 ≠ .ok none ∧
    ∀ item2, (InvoiceItemService.update db item_id request).2 = .ok (some item2) →
      (item2.subtotal, item2.tax_amount, item2.total_amount) =
        (let c := calculateTotals
          (match request.quantity with | some v => some v | none => item.quantity)
          (match request.unit_price with | some v => some v | none => item.unit_price)
          (match request.subtotal with | some v => some v | none => item.subtotal)
          (match request.tax_rate with | some v => some v | none => item.tax_rate)
          (match request.tax_amount with | some v => some v | none => item.tax_amount)
          (some (match request.total_amount with | some v => v | none => item.total_amount))
         (some c.1, some c.2.1, c.2.2)) ∧
      item2.total_amount =
        (match request.total_amount with | some v => v | none => item.total_amount) := by
  simp only [InvoiceItemService.update, hfind]
  rw [if_pos htrig]
  refine ⟨rfl, by simp [Except.isOk, Except.toBool], ?_⟩
  intro item2 h
  injection h with h2
  injection h2 with h3
  subst h3
  exact ⟨rfl, rfl⟩

/-- Witness for the amended C3: on `c3DB`, updating item 1 with only a new
subtotal persists `c3UpdatedItem`, whose total_amount is the old stored
119. -/
theorem item_update_merged_recalculation_witness :
    c3UpdatedItem.total_amount = 119 ∧ c3UpdatedItem.subtotal = some 200 :=
  ⟨((item_update_merged_recalculation c3DB 1 c3UpdateRequest c3Item rfl rfl).2.2
      c3UpdatedItem rfl).2, rfl⟩

theorem buildNestedItems_mem (invoice_id next_id : ℕ)
    (l : List InvoiceItemCreateNested) :
    ∀ it ∈ InvoiceService.buildNestedItems invoice_id next_id l,
      it.invoice_id = invoice_id ∧ next_id ≤ it.id ∧ it.id < next_id + l.length := by
  induction l generalizing next_id with
  | nil => intro it h; exact absurd h (List.not_mem_nil _)
  | cons a rest ih =>
    intro it h
    simp only [InvoiceService.buildNestedItems] at h
    rcases List.mem_cons.mp h with rfl | h2
    · exact ⟨rfl, Nat.le_refl _, by simp⟩
    · obtain ⟨h3, h4, h5⟩ := ih (next_id + 1) it h2
      refine ⟨h3, by omega, by simp only [List.length_cons]; omega⟩

theorem buildNestedItems_ids (invoice_id next_id : ℕ)
    (l : List InvoiceItemCreateNested) :
    ((InvoiceService.buildNestedItems invoice_id next_id l).map
      (fun it => it.id)).Nodup := by
  induction l generalizing next_id with
  | nil => simp [InvoiceService.buildNestedItems]
  | cons a rest ih =>
    simp only [InvoiceService.buildNestedItems, List.map_cons, List.nodup_cons]
    refine ⟨?_, ih (next_id + 1)⟩
    intro hmem
    simp only [List.mem_map] at hmem
    obtain ⟨it, hit, heq⟩ := hmem
    have := (buildNestedItems_mem invoice_id (next_id + 1) rest it hit).2.1
    omega

theorem buildNestedItems_totals (invoice_id next_id : ℕ)
    (l : List InvoiceItemCreateNested) :
    (InvoiceService.buildNestedItems invoice_id next_id l).map
        (fun it => it.total_amount) =
      l.map (fun item => (calculateItemTotals item.toTotalsInput).2.2) := by
  induction l generalizing next_id with
  | nil => rfl
  | cons a rest ih =>
    simp only [InvoiceService.buildNestedItems, List.map_cons]
    rw [ih]

theorem recalc_invoice_id_mem (db : DB) (j : ℕ) :
    ∀ inv2 ∈ (recalculateInvoiceTotal db j).invoices,
      ∃ inv ∈ db.invoices, inv2.id = inv.id := by
  unfold recalculateInvoiceTotal
  cases hf : findInvoice db j with
  | none => intro inv2 h; exact ⟨inv2, h, rfl⟩
  | some invoice =>
    intro inv2 h
    simp only [List.mem_map] at h
    obtain ⟨inv, hinv, rfl⟩ := h
    refine ⟨inv, hinv, ?_⟩
    by_cases hc : inv.id = j <;> simp [hc]

theorem recalc_preserves_Wf (db : DB) (j : ℕ) (hwf : db.Wf) :
    (recalculateInvoiceTotal db j).Wf := by
  obtain ⟨hnd, hidlt, hinvlt, hinvidlt⟩ := hwf
  have hit := recalculateInvoiceTotal_items db j
  have hct := recalculateInvoiceTotal_counters db j
  refine ⟨?_, ?_, ?_, ?_⟩
  · rw [hit]; exact hnd
  · intro it h; rw [hit] at h; rw [hct.1]; exact hidlt it h
  · intro it h; rw [hit] at h; rw [hct.2]; exact hinvlt it h
  · intro inv2 h
    obtain ⟨inv, hinv, heq⟩ := recalc_invoice_id_mem db j inv2 h
    rw [hct.2, heq]
    exact hinvidlt inv hinv

theorem totalsConsistent_recalc (db : DB) (j : ℕ)
    (h : ∀ inv ∈ db.invoices, inv.id ≠ j →
      inv.total_amount =
        ((itemsOfInvoice db inv.id).map (fun it => it.total_amount)).sum) :
    totalsConsistent (recalculateInvoiceTotal db j) := by
  intro inv2 hmem
  have hioi : ∀ i, itemsOfInvoice (recalculateInvoiceTotal db j) i = itemsOfInvoice db i :=
    fun i => itemsOfInvoice_congr _ _ (recalculateInvoiceTotal_items db j) i
  rw [hioi]
  by_cases hid : inv2.id = j
  · rw [hid]
    exact recalc_sets_matching_total db j inv2 hmem hid
  · exact h inv2 (recalc_keeps_nonmatching db j inv2 hmem hid) hid

theorem mem_id_unique (l : List StoredItem)
    (hnd : (l.map (fun it => it.id)).Nodup) :
    ∀ it1 ∈ l, ∀ it2 ∈ l, it1.id = it2.id → it1 = it2 :=
  fun _ h1 _ h2 heq => List.inj_on_of_nodup_map hnd h1 h2 heq

theorem itemsOfInvoice_append (db db2 : DB) (l : List StoredItem) (j : ℕ)
    (h : db2.items = db.items ++ l) :
    itemsOfInvoice db2 j =
      itemsOfInvoice db j ++ l.filter (fun it => it.invoice_id == j) := by
  unfold itemsOfInvoice
  rw [h, List.filter_append]

theorem update_map_ids (l : List StoredItem) (item_id : ℕ) (item2 : StoredItem)
    (h2 : item2.id = item_id) :
    ((l.map (fun it => if it.id == item_id then item2 else it)).map
      (fun it => it.id)) = l.map (fun it => it.id) := by
  rw [List.map_map]
  apply List.map_congr_left
  intro it _
  by_cases hc : it.id = item_id
  · simp [Function.comp, hc, h2]
  · simp [Function.comp, hc]

theorem update_map_mem (l : List StoredItem) (item_id : ℕ) (item2 : StoredItem) :
    ∀ it2 ∈ l.map (fun it => if it.id == item_id then item2 else it),
      it2 = item2 ∨ it2 ∈ l := by
  intro it2 h
  simp only [List.mem_map] at h
  obtain ⟨it, hit, rfl⟩ := h
  by_cases hc : it.id = item_id
  · left; simp [hc]
  · right; simpa [hc] using hit

theorem update_map_filter (l : List StoredItem) (item_id j : ℕ) (item2 : StoredItem)
    (hall : ∀ it ∈ l, it.id = item_id → it.invoice_id ≠ j)
    (h2 : item2.invoice_id ≠ j) :
    ((l.map (fun it => if it.id == item_id then item2 else it)).filter
        (fun it => it.invoice_id == j)) =
      l.filter (fun it => it.invoice_id == j) := by
  induction l with
  | nil => rfl
  | cons a rest ih =>
    have ihr := ih (fun it hit => hall it (List.mem_cons_of_mem _ hit))
    by_cases hc : a.id = item_id
    · have ha : a.invoice_id ≠ j := hall a (List.mem_cons_self _ _) hc
      have e0 : (if a.id == item_id then item2 else a) = item2 := by simp [hc]
      rw [List.map_cons, e0, List.filter_cons, List.filter_cons,
        if_neg (by simpa using h2), if_neg (by simpa using ha)]
      exact ihr
    · have e0 : (if a.id == item_id then item2 else a) = a := by simp [hc]
      rw [List.map_cons, e0, List.filter_cons, List.filter_cons]
      by_cases hj : a.invoice_id = j
      · rw [if_pos (by simpa using hj), if_pos (by simpa using hj), ihr]
      · rw [if_neg (by simpa using hj), if_neg (by simpa using hj)]
        exact ihr

theorem update_result_shape (db : DB) (item_id : ℕ)
    (request : InvoiceItemUpdateRequest) (item : StoredItem)
    (hf : findItem db item_id = some item) :
    ∃ item2 : StoredItem,
      (InvoiceItemService.update db item_id request).1 =
        recalculateInvoiceTotal
          { db with items := db.items.map (fun it =>
              if it.id == item_id then item2 else it) }
          item.invoice_id ∧
      item2.id = item.id ∧ item2.invoice_id = item.invoice_id := by
  simp only [InvoiceItemService.update, hf]
  exact ⟨_, rfl, rfl, rfl⟩

theorem applyItemOp_preserves (db : DB) (op : ItemMutatingOp)
    (hwf : db.Wf) (hcons : totalsConsistent db) (hop : allowedOp op) :
    (applyItemOp db op).Wf ∧ totalsConsistent (applyItemOp db op) := by
  obtain ⟨hnd, hidlt, hinvlt, hinvidlt⟩ := hwf
  cases op with
  | itemCreate invoice_id request =>
    cases hf : findInvoice db invoice_id with
    | none =>
      have hres : applyItemOp db (.itemCreate invoice_id request) = db := by
        simp only [applyItemOp, InvoiceItemService.create, hf]
      rw [hres]
      exact ⟨⟨hnd, hidlt, hinvlt, hinvidlt⟩, hcons⟩
    | some invoice =>
      have hinvmem : invoice ∈ db.invoices := List.mem_of_find?_eq_some hf
      have hinvid : invoice.id = invoice_id := by simpa using List.find?_some hf
      obtain ⟨item, hres, hiid, hid⟩ :
          ∃ item : StoredItem,
            applyItemOp db (.itemCreate invoice_id request) =
              recalculateInvoiceTotal
                { db with
                  items := db.items ++ [item]
                  nextItemId := db.nextItemId + 1 }
                invoice_id ∧
            item.invoice_id = invoice_id ∧ item.id = db.nextItemId := by
        simp only [applyItemOp, InvoiceItemService.create, hf]
        exact ⟨_, rfl, rfl, rfl⟩
      rw [hres]
      constructor
      · apply recalc_preserves_Wf
        refine ⟨?_, ?_, ?_, ?_⟩
        · show ((db.items ++ [item]).map (fun it => it.id)).Nodup
          rw [List.map_append, List.nodup_append]
          refine ⟨hnd, by simp, ?_⟩
          intro x hx hx2
          simp only [List.mem_map] at hx
          obtain ⟨it1, hit1, rfl⟩ := hx
          simp only [List.map_cons, List.map_nil, List.mem_singleton] at hx2
          have h1 := hidlt it1 hit1
          rw [hx2, hid] at h1
          omega
        · intro it2 h2
          rcases List.mem_append.mp h2 with h3 | h3
          · exact Nat.lt_succ_of_lt (hidlt it2 h3)
          · rcases List.mem_singleton.mp h3 with rfl
            rw [hid]
            exact Nat.lt_succ_self _
        · intro it2 h2
          rcases List.mem_append.mp h2 with h3 | h3
          · exact hinvlt it2 h3
          · rcases List.mem_singleton.mp h3 with rfl
            rw [hiid, ← hinvid]
            exact hinvidlt invoice hinvmem
        · intro inv h2
          exact hinvidlt inv h2
      · apply totalsConsistent_recalc
        intro inv hinv hne
        have hio := itemsOfInvoice_append db
          { db with items := db.items ++ [item], nextItemId := db.nextItemId + 1 }
          [item] inv.id rfl
        have hnil : [item].filter (fun it => it.invoice_id == inv.id) = [] := by
          have hne2 : item.invoice_id ≠ inv.id := by
            rw [hiid]
            exact fun hh => hne hh.symm
          rw [List.filter_cons, if_neg (by simpa using hne2)]
          rfl
        rw [hio, hnil, List.append_nil]
        exact hcons inv hinv
  | itemUpdate item_id request =>
    cases hf : findItem db item_id with
    | none =>
      have hres : applyItemOp db (.itemUpdate item_id request) = db := by
        simp only [applyItemOp, InvoiceItemService.update, hf]
      rw [hres]
      exact ⟨⟨hnd, hidlt, hinvlt, hinvidlt⟩, hcons⟩
    | some item =>
      have hmem : item ∈ db.items := List.mem_of_find?_eq_some hf
      have hideq : item.id = item_id := by simpa using List.find?_some hf
      obtain ⟨item2, hres, hid2, hiid2⟩ := update_result_shape db item_id request item hf
      have happ : applyItemOp db (.itemUpdate item_id request) =
          (InvoiceItemService.update db item_id request).1 := rfl
      rw [happ, hres]
      constructor
      · apply recalc_preserves_Wf
        refine ⟨?_, ?_, ?_, ?_⟩
        · show ((db.items.map (fun it => if it.id == item_id then item2 else it)).map
            (fun it => it.id)).Nodup
          rw [update_map_ids db.items item_id item2 (hid2.trans hideq)]
          exact hnd
        · intro it2 h2
          rcases update_map_mem db.items item_id item2 it2 h2 with rfl | h3
          · rw [hid2]
            exact hidlt item hmem
          · exact hidlt it2 h3
        · intro it2 h2
          rcases update_map_mem db.items item_id item2 it2 h2 with rfl | h3
          · rw [hiid2]
            exact hinvlt item hmem
          · exact hinvlt it2 h3
        · intro inv h2
          exact hinvidlt inv h2
      · apply totalsConsistent_recalc
        intro inv hinv hne
        have hall : ∀ it ∈ db.items, it.id = item_id → it.invoice_id ≠ inv.id := by
          intro it hit hidq
          have heq : it = item :=
            mem_id_unique db.items hnd it hit item hmem (by rw [hidq, hideq])
          rw [heq]
          exact fun hh => hne hh.symm
        have hfil := update_map_filter db.items item_id inv.id item2 hall
          (by rw [hiid2]; exact fun hh => hne hh.symm)
        have hio : itemsOfInvoice
            { db with items := db.items.map (fun it =>
                if it.id == item_id then item2 else it) } inv.id =
            itemsOfInvoice db inv.id := hfil
        rw [hio]
        exact hcons inv hinv
  | itemDelete item_id =>
    cases hf : findItem db item_id with
    | none =>
      have hres : applyItemOp db (.itemDelete item_id) = db := by
        simp only [applyItemOp, InvoiceItemService.delete, hf]
      rw [hres]
      exact ⟨⟨hnd, hidlt, hinvlt, hinvidlt⟩, hcons⟩
    | some item =>
      have hmem : item ∈ db.items := List.mem_of_find?_eq_some hf
      have hideq : item.id = item_id := by simpa using List.find?_some hf
      have hres : applyItemOp db (.itemDelete item_id) =
          recalculateInvoiceTotal
            { db with items := db.items.filter (fun it => !(it.id == item_id)) }
            item.invoice_id := by
        simp only [applyItemOp, InvoiceItemService.delete, hf]
      rw [hres]
      constructor
      · apply recalc_preserves_Wf
        refine ⟨?_, ?_, ?_, ?_⟩
        · have hsub : ((db.items.filter (fun it => !(it.id == item_id))).map
              (fun it => it.id)).Sublist (db.items.map (fun it => it.id)) :=
            (List.filter_sublist _).map _
          exact hnd.sublist hsub
        · intro it2 h2
          exact hidlt it2 (List.mem_of_mem_filter h2)
        · intro it2 h2
          exact hinvlt it2 (List.mem_of_mem_filter h2)
        · intro inv h2
          exact hinvidlt inv h2
      · apply totalsConsistent_recalc
        intro inv hinv hne
        have hio := itemsOfInvoice_filter db (fun it => !(it.id == item_id)) inv.id
        have hself : (itemsOfInvoice db inv.id).filter (fun it => !(it.id == item_id)) =
            itemsOfInvoice db inv.id := by
          apply List.filter_eq_self.mpr
          intro it hit
          have hit0 : it ∈ db.items.filter (fun x => x.invoice_id == inv.id) := hit
          have hit2 : it ∈ db.items := List.mem_of_mem_filter hit0
          have hinvidq := List.of_mem_filter hit0
          have hneid : it.id ≠ item_id := by
            intro hidq
            have heq : it = item :=
              mem_id_unique db.items hnd it hit2 item hmem (by rw [hidq, hideq])
            have hloc : it.invoice_id = inv.id := by simpa using hinvidq
            rw [heq] at hloc
            exact hne hloc.symm
          simp [hneid]
        rw [hio, hself]
        exact hcons inv hinv
  | nestedCreate request =>
    by_cases hd : datesInvalid request.departure_date request.arrival_date = true
    · have hres : applyItemOp db (.nestedCreate request) = db := by
        simp only [applyItemOp, InvoiceService.createWithItems]
        rw [if_pos hd]
      rw [hres]
      exact ⟨⟨hnd, hidlt, hinvlt, hinvidlt⟩, hcons⟩
    · have hres : applyItemOp db (.nestedCreate request) =
          { db with
            invoices := db.invoices ++
              [{ id := db.nextInvoiceId
                 invoice_number := request.invoice_number
                 provider_name := request.provider_name
                 arrival_date := request.arrival_date
                 departure_date := request.departure_date
                 total_amount := itemsTotal request.items
                 paid := request.paid }]
            items := db.items ++
              InvoiceService.buildNestedItems db.nextInvoiceId db.nextItemId request.items
            nextInvoiceId := db.nextInvoiceId + 1
            nextItemId := db.nextItemId + request.items.length } := by
        rcases hop with htot | htot
        · simp only [applyItemOp, InvoiceService.createWithItems]
          rw [if_neg hd, htot]
        · simp only [applyItemOp, InvoiceService.createWithItems]
          rw [if_neg hd, htot]
          simp only []
          rw [if_neg (by rw [sub_self, abs_zero]; norm_num)]
      rw [hres]
      have hnew := buildNestedItems_mem db.nextInvoiceId db.nextItemId request.items
      have hnewids := buildNestedItems_ids db.nextInvoiceId db.nextItemId request.items
      constructor
      · refine ⟨?_, ?_, ?_, ?_⟩
        · rw [List.map_append, List.nodup_append]
          refine ⟨hnd, hnewids, ?_⟩
          intro x hx hx2
          simp only [List.mem_map] at hx hx2
          obtain ⟨it1, hit1, rfl⟩ := hx
          obtain ⟨it2, hit2, heq⟩ := hx2
          have h1 := hidlt it1 hit1
          have h2 := (hnew it2 hit2).2.1
          omega
        · intro it2 h2
          show it2.id < db.nextItemId + request.items.length
          rcases List.mem_append.mp h2 with h3 | h3
          · have := hidlt it2 h3
            omega
          · exact (hnew it2 h3).2.2
        · intro it2 h2
          show it2.invoice_id < db.nextInvoiceId + 1
          rcases List.mem_append.mp h2 with h3 | h3
          · have := hinvlt it2 h3
            omega
          · have := (hnew it2 h3).1
            omega
        · intro inv h2
          show inv.id < db.nextInvoiceId + 1
          rcases List.mem_append.mp h2 with h3 | h3
          · have := hinvidlt inv h3
            omega
          · rcases List.mem_singleton.mp h3 with rfl
            simp
      · intro inv hinv
        rcases List.mem_append.mp hinv with h3 | h3
        · have hio := itemsOfInvoice_append db
            { db with
              invoices := db.invoices ++
                [{ id := db.nextInvoiceId
                   invoice_number := request.invoice_number
                   provider_name := request.provider_name
                   arrival_date := request.arrival_date
                   departure_date := request.departure_date
                   total_amount := itemsTotal request.items
                   paid := request.paid }]
              items := db.items ++
                InvoiceService.buildNestedItems db.nextInvoiceId db.nextItemId request.items
              nextInvoiceId := db.nextInvoiceId + 1
              nextItemId := db.nextItemId + request.items.length }
            (InvoiceService.buildNestedItems db.nextInvoiceId db.nextItemId request.items)
            inv.id rfl
          have hnil : (InvoiceService.buildNestedItems db.nextInvoiceId db.nextItemId
              request.items).filter (fun it => it.invoice_id == inv.id) = [] := by
            apply List.filter_eq_nil_iff.mpr
            intro it hit
            have hiid := (hnew it hit).1
            have hlt := hinvidlt inv h3
            simp only [beq_iff_eq, hiid]
            omega
          rw [hio, hnil, List.append_nil]
          exact hcons inv h3
        · rcases List.mem_singleton.mp h3 with rfl
          have hold : itemsOfInvoice db db.nextInvoiceId = [] := by
            apply List.filter_eq_nil_iff.mpr
            intro it hit
            have := hinvlt it hit
            simp only [beq_iff_eq]
            omega
          have hnewfil : (InvoiceService.buildNestedItems db.nextInvoiceId db.nextItemId
              request.items).filter (fun it => it.invoice_id == db.nextInvoiceId) =
              InvoiceService.buildNestedItems db.nextInvoiceId db.nextItemId
                request.items := by
            apply List.filter_eq_self.mpr
            intro it hit
            simp [(hnew it hit).1]
          have hio := itemsOfInvoice_append db
            { db with
              invoices := db.invoices ++
                [{ id := db.nextInvoiceId
                   invoice_number := request.invoice_number
                   provider_name := request.provider_name
                   arrival_date := request.arrival_date
                   departure_date := request.departure_date
                   total_amount := itemsTotal request.items
                   paid := request.paid }]
              items := db.items ++
                InvoiceService.buildNestedItems db.nextInvoiceId db.nextItemId request.items
              nextInvoiceId := db.nextInvoiceId + 1
              nextItemId := db.nextItemId + request.items.length }
            (InvoiceService.buildNestedItems db.nextInvoiceId db.nextItemId request.items)
            db.nextInvoiceId rfl
          show itemsTotal request.items = _
          rw [hio, hold, List.nil_append, hnewfil, buildNestedItems_totals]
          rfl

theorem applyItemOps_preserves (db : DB) (ops : List ItemMutatingOp)
    (hwf : db.Wf) (hcons : totalsConsistent db)
    (hops : ∀ op ∈ ops, allowedOp op) :
    (applyItemOps db ops).Wf ∧ totalsConsistent (applyItemOps db ops) := by
  induction ops generalizing db with
  | nil => exact ⟨hwf, hcons⟩
  | cons op rest ih =>
    have h1 := applyItemOp_preserves db op hwf hcons (hops op (List.mem_cons_self _ _))
    exact ih (applyItemOp db op) h1.1 h1.2 (fun o ho => hops o (List.mem_cons_of_mem _ ho))

/-- Counterexample to C2 as stated: a nested invoice-with-items creation
with explicit total 100.01 against a single item of total 100 completes
successfully (the 0.01 tolerance admits it), yet the stored invoice total
(100.01) differs from the items sum (100): the invariant fails after a
successfully completed operation of the claimed class. -/
theorem nested_create_tolerance_breaks_invariant :
    totalsConsistent emptyDB ∧
    ((InvoiceService.createWithItems emptyDB reqTolerance).2).isOk = true ∧
    ¬ totalsConsistent (InvoiceService.createWithItems emptyDB reqTolerance).1 := by
  have hitems : itemsTotal reqTolerance.items = 100 := by
    norm_num [itemsTotal, reqTolerance, nestedItem100, calculateItemTotals,
      InvoiceItemCreateNested.toTotalsInput]
  have hcond : ¬ ((1 : ℚ)/100 < |10001/100 - itemsTotal reqTolerance.items|) := by
    rw [hitems, show (10001 : ℚ)/100 - 100 = 1/100 by norm_num,
      abs_of_nonneg (by norm_num : (0 : ℚ) ≤ 1/100)]
    norm_num
  have hres : InvoiceService.createWithItems emptyDB reqTolerance =
      ({ invoices := [{ id := 1
                        invoice_number := "FAC-004"
                        provider_name := "Hotel"
                        arrival_date := none
                        departure_date := none
                        total_amount := 10001/100
                        paid := false }]
         items := InvoiceService.buildNestedItems 1 1 reqTolerance.items
         nextInvoiceId := 2
         nextItemId := 1 + reqTolerance.items.length },
       .ok { id := 1
             invoice_number := "FAC-004"
             provider_name := "Hotel"
             arrival_date := none
             departure_date := none
             total_amount := 10001/100
             paid := false }) := by
    simp only [InvoiceService.createWithItems]
    rw [if_neg (by simp [reqTolerance, datesInvalid])]
    rw [show reqTolerance.total_amount = some (10001/100) from rfl]
    simp only []
    rw [if_neg hcond]
    rfl
  refine ⟨fun inv h => absurd h (List.not_mem_nil _), ?_, ?_⟩
  · rw [hres]
    rfl
  · rw [hres]
    intro hcontra
    have hmem : ({ id := 1
                   invoice_number := "FAC-004"
                   provider_name := "Hotel"
                   arrival_date := none
                   departure_date := none
                   total_amount := 10001/100
                   paid := false } : StoredInvoice) ∈
        [({ id := 1
            invoice_number := "FAC-004"
            provider_name := "Hotel"
            arrival_date := none
            departure_date := none
            total_amount := 10001/100
            paid := false } : StoredInvoice)] := List.mem_singleton.mpr rfl
    have hbad := hcontra _ hmem
    norm_num [itemsOfInvoice, InvoiceService.buildNestedItems, reqTolerance,
      nestedItem100, calculateItemTotals, InvoiceItemCreateNested.toTotalsInput,
      List.filter] at hbad

/-- C2 (amended): starting from a well-formed, consistent database, after
any sequence of item create, update, and delete operations and of nested
invoice-with-items creations that either omit the invoice total_amount or
supply exactly the items sum, every invoice's stored total_amount equals
the sum of its items' total_amount.  (A nested creation supplying an
explicit total inside the 0.01 tolerance but off the exact sum stores the
supplied value and is the one exception, per the counterexample.) -/
theorem invoice_totals_invariant (db : DB) (ops : List ItemMutatingOp)
    (hwf : db.Wf) (hcons : totalsConsistent db)
    (hops : ∀ op ∈ ops, allowedOp op) :
    totalsConsistent (applyItemOps db ops) :=
  (applyItemOps_preserves db ops hwf hcons hops).2

/-- Witness for the amended C2: one nested creation without an explicit
total on the empty database yields a consistent store. -/
theorem invoice_totals_invariant_witness :
    totalsConsistent (applyItemOps emptyDB [ItemMutatingOp.nestedCreate reqNoTotal]) :=
  invoice_totals_invariant emptyDB [ItemMutatingOp.nestedCreate reqNoTotal]
    ⟨List.nodup_nil, fun _ h => absurd h (List.not_mem_nil _),
     fun _ h => absurd h (List.not_mem_nil _), fun _ h => absurd h (List.not_mem_nil _)⟩
    (fun _ h => absurd h (List.not_mem_nil _))
    (fun op hop => by
      rcases List.mem_singleton.mp hop with rfl
      exact Or.inl rfl)

/-- C9: the two item-total calculators, `InvoiceItemService._calculate_totals`
and `InvoiceService._calculate_item_totals`, compute identical
(subtotal, tax_amount, total_amount) triples on every combination of the six
optional inputs. -/
theorem calculateTotals_eq_calculateItemTotals (q up s tr ta tot : Option ℚ) :
    calculateTotals q up s tr ta tot =
      calculateItemTotals ⟨q, up, s, tr, ta, tot⟩ := rfl

end GreenTravel
